import Mathlib

/-!
Verification development for the PFC-StereoMic repository.

Shallow embedding of the audio-processing core:
  * `sound_processing.apply_equalizer`  (sound_processing.py, lines 22-83)
  * `audio_stream.AudioStreamer.callback / streaming / stop_stream`
    (audio_stream.py, lines 78-228)
  * `recording_settings.RecordingSettings.bit_depth / full_path_name`
    (recording_settings.py, lines 100-106 and 156-159)

Modelling conventions:
  * Python floats are modelled as rationals (`ℚ`); the two genuinely
    numeric library kernels — the dB-to-linear conversion `10 ** (g / 20)`
    and the scipy `butter`/`filtfilt` band-pass kernel — are abstracted as
    the fields of `ScipyModel`, since their transcendental values are not
    what the claims are about.  Every structural step of the Python code
    (loop structure, accumulation, checks, casts, cursor arithmetic,
    control flow on exceptions) is embedded literally.
  * Python exceptions are modelled by `Except PyError`; a raised exception
    propagates, exactly as in the source, unless an `except` clause is in
    the source.
  * NumPy `int16` data is modelled as `List Int`; the NumPy
    `astype(np.int16)` conversion is a C-style cast: truncation toward
    zero followed by two's-complement wraparound modulo 2 ^ 16.
-/

namespace StereoMic

/-- Python exception values that the embedded code can raise.
`invalidBandLimits` is the `ValueError` raised at sound_processing.py:73
with the two normalized band limits that its message reports;
`valueError` stands for the message-only `ValueError` of the settings
setters; `typeError` is the arity error raised when a function is called
with the wrong number of positional arguments. -/
inductive PyError where
  | typeError : PyError
  | valueError : PyError
  | invalidBandLimits : ℚ → ℚ → PyError
  | zeroDivisionError : PyError
deriving DecidableEq

/-- One equalizer band, the value `(freq, gain, q)` stored under key
`band_id` in the `eq_bands` dictionary (constant.py `DEFAULT_EQ_BANDS`,
audio_settings.py).  `gain` is in dB. -/
structure EqBand where
  id : Nat
  freq : ℚ
  gain : ℚ
  q : ℚ
deriving DecidableEq

/-- The `AudioSettings` object (audio_settings.py): the equalizer band
table in dictionary insertion order, and the stored global gain in dB.
`apply_equalizer` reads `eq_bands` from it (sound_processing.py:51). -/
structure AudioSettings where
  eqBands : List EqBand
  globalGain : ℚ

/-- Abstraction of the two numeric library kernels used by
`apply_equalizer`.  `dbLin g` models the Python float `10 ** (g / 20)`
(sound_processing.py:81); `filt low high fs data` models the numeric
content of `signal.filtfilt(b, a, data)` where `b, a = signal.butter(
N=4, Wn=(low, high), btype='bandpass', fs=fs)` (sound_processing.py:
76-80), on the inputs where that call returns a value.  Concrete
theorems instantiate `dbLin` with functions that agree with the float
computation at every gain where it is applied, and `filt` with
structural stand-ins whose exact values the structural claims do not
depend on.  The raising behavior of `butter` and `filtfilt` themselves
(invalid critical frequencies, too-short input) is not part of this
kernel; where a claim depends on it, it is modelled explicitly in
`bandContributionScipy` below. -/
structure ScipyModel where
  dbLin : ℚ → ℚ
  filt : ℚ → ℚ → ℚ → List ℚ → List ℚ

/-- Derived bandwidth `freq / q` of a band (sound_processing.py:61). -/
def bandwidth (b : EqBand) : ℚ := b.freq / b.q

/-- Lower band edge `freq - bandwidth / 2` (sound_processing.py:62). -/
def lowEdge (b : EqBand) : ℚ := b.freq - bandwidth b / 2

/-- Upper band edge `freq + bandwidth / 2` (sound_processing.py:63). -/
def highEdge (b : EqBand) : ℚ := b.freq + bandwidth b / 2

/-- Body of one iteration of the band loop of `apply_equalizer`
(sound_processing.py:59-81): derive the edges, normalize by the Nyquist
frequency, run the function's own validity check `0 <= low < high <= 1`
(raising the `ValueError` of line 73 when it fails), then return the
band-pass filtered data scaled by the linear gain.  Python raises
`ZeroDivisionError` on float division by zero, hence the two guards.
This version treats the scipy kernel as total: it does not model the
`ValueError`s that `signal.butter` (critical frequencies on or outside
the open Nyquist interval) and `signal.filtfilt` (input shorter than its
padding length) raise on their own; the claims proved against it do not
depend on those error paths.  `bandContributionScipy` below refines this
definition with those library checks for the claim that does. -/
def bandContribution (ctx : ScipyModel) (sr : ℚ) (data : List ℚ) (b : EqBand) :
    Except PyError (List ℚ) :=
  if b.q = 0 then .error .zeroDivisionError
  else
    let lowFreq := lowEdge b
    let highFreq := highEdge b
    let nyquist := sr / 2
    if nyquist = 0 then .error .zeroDivisionError
    else
      let low := lowFreq / nyquist
      let high := highFreq / nyquist
      if 0 ≤ low ∧ low < high ∧ high ≤ 1 then
        .ok ((ctx.filt lowFreq highFreq sr data).map (fun x => x * ctx.dbLin b.gain))
      else
        .error (.invalidBandLimits low high)

/-- The band loop of `apply_equalizer` (sound_processing.py:59-81).
Faithful to the source: line 81 reads
`equalized_data = band_filtered * (10 ** (gain / 20))`, an assignment,
so each iteration REPLACES the accumulator with the current band's
contribution instead of adding to it; the accumulator argument of the
recursive call discards the previous value. -/
def eqLoop (ctx : ScipyModel) (sr : ℚ) (data : List ℚ) :
    List EqBand → List ℚ → Except PyError (List ℚ)
  | [], acc => .ok acc
  | b :: rest, _acc =>
    match bandContribution ctx sr data b with
    | .error e => .error e
    | .ok contrib => eqLoop ctx sr data rest contrib

/-- Embedding of `sound_processing.apply_equalizer(data, samplerate)`
(sound_processing.py:22-83): read `eq_bands` from the settings object,
return the data unchanged when the table is empty, otherwise run the
band loop starting from the `np.zeros_like(data)` buffer of line 56. -/
def apply_equalizer (ctx : ScipyModel) (audioSet : AudioSettings) (sr : ℚ)
    (data : List ℚ) : Except PyError (List ℚ) :=
  if audioSet.eqBands.isEmpty then .ok data
  else eqLoop ctx sr data audioSet.eqBands (data.map (fun _ => 0))

/-- Elementwise sum of two sample buffers. -/
def listAdd (xs ys : List ℚ) : List ℚ := List.zipWith (fun a b => a + b) xs ys

/-- Claim-side band loop, following the spec's words (spec §4.2 step 6:
"Accumulate all band contributions by summation (not averaging) into one
output buffer"): identical to `eqLoop` except that each contribution is
ADDED to the accumulator. -/
def eqLoopSummed (ctx : ScipyModel) (sr : ℚ) (data : List ℚ) :
    List EqBand → List ℚ → Except PyError (List ℚ)
  | [], acc => .ok acc
  | b :: rest, acc =>
    match bandContribution ctx sr data b with
    | .error e => .error e
    | .ok contrib => eqLoopSummed ctx sr data rest (listAdd acc contrib)

/-- Claim-side equalizer, following the spec's words (spec §4.2 steps
1-6): band contributions accumulated by summation. -/
def apply_equalizer_summed (ctx : ScipyModel) (audioSet : AudioSettings) (sr : ℚ)
    (data : List ℚ) : Except PyError (List ℚ) :=
  if audioSet.eqBands.isEmpty then .ok data
  else eqLoopSummed ctx sr data audioSet.eqBands (data.map (fun _ => 0))

/-- Claim-side equalizer with global gain, following the spec's words
(spec §4.2 step 7: "Apply `global_gain_db` as a final linear multiplier
to the summed result"). -/
def apply_equalizer_claimed (ctx : ScipyModel) (audioSet : AudioSettings) (sr : ℚ)
    (data : List ℚ) : Except PyError (List ℚ) :=
  (apply_equalizer_summed ctx audioSet sr data).map
    (fun out => out.map (fun x => x * ctx.dbLin audioSet.globalGain))

/-- Truncation of a rational toward zero, the integer part a C float-to-
integer cast keeps. -/
def ratTrunc (x : ℚ) : Int := if 0 ≤ x then ⌊x⌋ else ⌈x⌉

/-- Two's-complement wraparound into the 16-bit signed range, the
reduction a C cast to `int16` performs on an out-of-range integer. -/
def wrap16 (z : Int) : Int := (z + 32768) % 65536 - 32768

/-- Embedding of the NumPy conversion `x.astype(np.int16)` applied to a
float sample (audio_stream.py:135): C-style truncation toward zero
followed by wraparound modulo 2 ^ 16 — NOT a clamp. -/
def astypeInt16 (x : ℚ) : Int := wrap16 (ratTrunc x)

/-- The `astype(np.int16)` conversion applied elementwise to a frame. -/
def castFrame (xs : List ℚ) : List Int := xs.map astypeInt16

/-- Claim-side sample conversion, following the spec's words (spec §4.2
step 8: "hard clipping to the representable range (e.g., 16-bit signed:
clamp to [-32768, 32767])"). -/
def clampInt16 (x : ℚ) : Int := max (-32768) (min 32767 (ratTrunc x))

/-- The two completion flags a PyAudio callback can return. -/
inductive PaFlag where
  | paContinue : PaFlag
  | paComplete : PaFlag
deriving DecidableEq

/-- Mutable state of `audio_stream.AudioStreamer` that its `callback`
touches: the decoded `int16` source buffer (`np.frombuffer` of
`rec_set.in_data_bytes`, audio_stream.py:114), the playback cursor
`frame_start_index` (initialized to 0 at audio_stream.py:66), the
channel count, sample rate and bit depth copied from the settings, and
the accumulation queue fed by `rec_set.add_to_audio_queue`. -/
structure StreamerState where
  inDataBytes : List Int
  frameStartIndex : Nat
  channels : Nat
  rate : ℚ
  bitDepth : ℚ
  audioQueue : List (List Int)
deriving DecidableEq

/-- End index computed by the callback (audio_stream.py:119-124):
`end = start + frame_count * channels`, clamped down to the buffer
length when it runs past the end. -/
def callbackEnd (s : StreamerState) (frameCount : Nat) : Nat :=
  let e := s.frameStartIndex + frameCount * s.channels
  if e > s.inDataBytes.length then s.inDataBytes.length else e

/-- The slice `full_audio[start:end]` the callback extracts
(audio_stream.py:127). -/
def callbackSlice (s : StreamerState) (frameCount : Nat) : List Int :=
  (s.inDataBytes.drop s.frameStartIndex).take (callbackEnd s frameCount - s.frameStartIndex)

/-- The call `sound_processing.apply_equalizer(frame_np, self.rate,
self.bit_depth)` at audio_stream.py:135.  The target function
`sound_processing.apply_equalizer` (sound_processing.py:22) takes the
two positional parameters `(data, samplerate)`, so Python raises
`TypeError` at the call site before any of the function body runs. -/
def applyEqualizerCall3 (_frame : List Int) (_rate _bitDepth : ℚ) :
    Except PyError (List ℚ) :=
  .error .typeError

/-- Embedding of `audio_stream.AudioStreamer.callback`
(audio_stream.py:78-144).  The cursor arithmetic and the cursor update
of line 130 execute first; the equalizer call of line 135 then raises,
and with no `try`/`except` in the body the exception propagates to the
caller (the backend), leaving the already-updated state behind.  The
unreachable tail of the body (cast, enqueue, `tobytes`, `paContinue`)
is embedded in the `ok` branch. -/
def callback (s : StreamerState) (frameCount : Nat) :
    Except PyError (List Int × PaFlag) × StreamerState :=
  let e := callbackEnd s frameCount
  let frame := callbackSlice s frameCount
  let s1 : StreamerState := { s with frameStartIndex := e }
  match applyEqualizerCall3 frame s.rate s.bitDepth with
  | .error err => (.error err, s1)
  | .ok eqd =>
    let frameEqualized := castFrame eqd
    let s2 : StreamerState := { s1 with audioQueue := s1.audioQueue ++ [frameEqualized] }
    (.ok (frameEqualized, .paContinue), s2)

/-- Iterated callback invocations: the state after the backend has
invoked `callback` once per entry of `frameCounts`. -/
def runCallbacks (s : StreamerState) : List Nat → StreamerState
  | [] => s
  | frameCount :: rest => runCallbacks (callback s frameCount).2 rest

/-- Backend-affecting operations of `AudioStreamer.stop_stream`
(audio_stream.py:205-228); prints are omitted (logging is out of the
spec's scope). -/
inductive BackendAction where
  | stopStream : BackendAction
  | closeStream : BackendAction
  | terminateAudio : BackendAction
deriving DecidableEq

/-- How the polling loop of `AudioStreamer.streaming`
(audio_stream.py:195-198) was exited: the stream went inactive, a
`KeyboardInterrupt` arrived, or an unexpected exception was observed. -/
inductive LoopExit where
  | normal : LoopExit
  | keyboardInterrupt : LoopExit
  | unexpectedError : LoopExit
deriving DecidableEq

/-- Trace of backend operations performed by `stop_stream`
(audio_stream.py:221-228): stop and close the stream when a stream
object exists, then terminate the PortAudio instance when one exists. -/
def stopStreamTrace (hasStream hasAudio : Bool) : List BackendAction :=
  (if hasStream then [.stopStream, .closeStream] else []) ++
    (if hasAudio then [.terminateAudio] else [])

/-- Trace of backend operations `streaming` performs after its polling
loop exits (audio_stream.py:195-203): only the `KeyboardInterrupt`
handler calls `self.stop_stream()`; the normal loop exit and the generic
`Exception` handler fall through without any teardown. -/
def streamingExitTrace (hasStream hasAudio : Bool) : LoopExit → List BackendAction
  | .normal => []
  | .keyboardInterrupt => stopStreamTrace hasStream hasAudio
  | .unexpectedError => []

/-- Stored state of `RecordingSettings` that the `bit_depth` accessors
touch (recording_settings.py:13). -/
structure RecState where
  bitDepth : Int
deriving DecidableEq

/-- The operand Python evaluates for the comparison in the `bit_depth`
setter (recording_settings.py:103): the expression `(16 or 24)` is a
boolean-or of integers, which short-circuits to its first truthy
operand, 16. -/
def bitDepthComparand : Int := 16

/-- Embedding of the `bit_depth` setter (recording_settings.py:100-106):
`if value != (16 or 24): raise ValueError(...)`, otherwise store the
value.  On error the prior state is returned unchanged inside the
exception path (the caller's object keeps the old value). -/
def bitDepthSetter (s : RecState) (value : Int) : Except PyError RecState :=
  if value ≠ bitDepthComparand then .error .valueError
  else .ok { s with bitDepth := value }

/-- Embedding of the `full_path_name` setter
(recording_settings.py:156-159).  Its body is
`with self._lock: self.full_path_name = path` — the assignment
re-invokes the same property setter.  The argument `lockHeld` is the
state of the object's `threading.Lock` (non-reentrant,
recording_settings.py:10) at entry; acquiring a held non-reentrant lock
blocks forever, modelled as `none`.  The fuel argument bounds the
recursion depth; divergence is the statement that no fuel suffices. -/
def fullPathNameSetter : Nat → Bool → Option Bool
  | _, true => none
  | 0, false => none
  | Nat.succ n, false => fullPathNameSetter n true

/-- Concrete stand-in for `10 ** (g / 20)` used in the concrete example
theorems below; it agrees with the float computation at every gain at
which those examples evaluate it (0 dB ↦ 1 and 20 dB ↦ 10). -/
def demoDbLin : ℚ → ℚ := fun g => if g = 20 then 10 else 1

/-- Concrete stand-in for the numeric content of the scipy band-pass
kernel used in the concrete example theorems below: it scales the input
by the lower edge frequency, so distinct bands produce distinct
contributions, as real band-pass filters do.  It is a structural
stand-in only — the claims it serves (overwrite versus summation,
global gain unused, cast semantics) do not depend on the kernel's
numeric values, and the library's own raising behavior is modelled
separately in `bandContributionScipy`. -/
def demoFilt : ℚ → ℚ → ℚ → List ℚ → List ℚ :=
  fun low _high _fs data => data.map (fun x => x * low)

/-- The scipy abstraction instantiated with the concrete stand-ins. -/
def demoCtx : ScipyModel := { dbLin := demoDbLin, filt := demoFilt }

/-- Decidable equality for `Except` results, so that concrete runs of
the embedded code can be checked by evaluation. -/
instance {ε α : Type} [DecidableEq ε] [DecidableEq α] : DecidableEq (Except ε α)
  | Except.error e, Except.error f =>
    if h : e = f then isTrue (h ▸ rfl) else isFalse fun hc => h (by injection hc)
  | Except.error _, Except.ok _ => isFalse fun hc => Except.noConfusion hc
  | Except.ok _, Except.error _ => isFalse fun hc => Except.noConfusion hc
  | Except.ok x, Except.ok y =>
    if h : x = y then isTrue (h ▸ rfl) else isFalse fun hc => h (by injection hc)

/-- Two valid bands used by the example theorems: band 1 contributes
`[50]` and band 2 contributes `[100]` on the input frame `[1]` under
`demoCtx` (both gains are 0 dB, linear 1). -/
def demoBand1 : EqBand := { id := 1, freq := 100, gain := 0, q := 1 }

/-- Second example band; see `demoBand1`. -/
def demoBand2 : EqBand := { id := 2, freq := 200, gain := 0, q := 1 }

/-- Example band whose 20 dB gain (linear 10) drives a sample out of the
16-bit range under `demoCtx`. -/
def demoBand3 : EqBand := { id := 3, freq := 100, gain := 20, q := 1 }

/-- Strict edge validity for a band: exactly the condition under which,
with a positive sample rate, neither the function's own check
(sound_processing.py:72) nor `signal.butter`'s critical-frequency
validation rejects the band. -/
def bandEdgesStrict (sr : ℚ) (b : EqBand) : Prop :=
  0 < lowEdge b ∧ lowEdge b < highEdge b ∧ highEdge b < sr / 2

instance (sr : ℚ) (b : EqBand) : Decidable (bandEdgesStrict sr b) := by
  unfold bandEdgesStrict; infer_instance

/-- Default padding length of `signal.filtfilt` for the filter designed
at sound_processing.py:77: `butter(N=4, btype='bandpass')` returns
`b`, `a` with `2 * 4 + 1 = 9` coefficients each, and filtfilt's default
`padlen` is `3 * max(len(a), len(b)) = 27`; filtfilt raises
`ValueError` unless the input is strictly longer than this. -/
def filtfiltPadlen : Nat := 27

/-- Refinement of `bandContribution` that also models the documented
raising behavior of the scipy calls at sound_processing.py:77-80:
after the function's own check `0 <= low < high <= 1` passes,
`signal.butter` validates its normalized critical frequencies strictly
(`ValueError` unless `0 < Wn < 1`, i.e. unless both edges lie strictly
inside the open Nyquist interval), and `signal.filtfilt` raises
`ValueError` when the input is not longer than its padding length. -/
def bandContributionScipy (ctx : ScipyModel) (sr : ℚ) (data : List ℚ) (b : EqBand) :
    Except PyError (List ℚ) :=
  if b.q = 0 then .error .zeroDivisionError
  else
    let lowFreq := lowEdge b
    let highFreq := highEdge b
    let nyquist := sr / 2
    if nyquist = 0 then .error .zeroDivisionError
    else
      let low := lowFreq / nyquist
      let high := highFreq / nyquist
      if 0 ≤ low ∧ low < high ∧ high ≤ 1 then
        if 0 < low ∧ low < 1 ∧ 0 < high ∧ high < 1 then
          if filtfiltPadlen < data.length then
            .ok ((ctx.filt lowFreq highFreq sr data).map (fun x => x * ctx.dbLin b.gain))
          else .error .valueError
        else .error .valueError
      else
        .error (.invalidBandLimits low high)

/-- The band loop of `apply_equalizer` over the refined band step; the
overwrite of line 81 is embedded exactly as in `eqLoop`. -/
def eqLoopScipy (ctx : ScipyModel) (sr : ℚ) (data : List ℚ) :
    List EqBand → List ℚ → Except PyError (List ℚ)
  | [], acc => .ok acc
  | b :: rest, _acc =>
    match bandContributionScipy ctx sr data b with
    | .error e => .error e
    | .ok contrib => eqLoopScipy ctx sr data rest contrib

/-- `apply_equalizer` over the refined band step: the whole pipeline of
sound_processing.py:22-83 including the `ValueError`s that the scipy
calls raise on their own. -/
def apply_equalizer_scipy (ctx : ScipyModel) (audioSet : AudioSettings) (sr : ℚ)
    (data : List ℚ) : Except PyError (List ℚ) :=
  if audioSet.eqBands.isEmpty then .ok data
  else eqLoopScipy ctx sr data audioSet.eqBands (data.map (fun _ => 0))

/-- Concrete streamer state used by the callback example theorems: a
four-sample stereo buffer with the cursor at the start. -/
def demoS0 : StreamerState :=
  { inDataBytes := [1, 2, 3, 4], frameStartIndex := 0, channels := 2,
    rate := 192000, bitDepth := 16, audioQueue := [] }

/-- Streamer state whose cursor has reached the end of the source
buffer. -/
def demoSEnd : StreamerState :=
  { inDataBytes := [1, 2, 3, 4], frameStartIndex := 4, channels := 2,
    rate := 192000, bitDepth := 16, audioQueue := [] }

/-- Streamer state used by the cursor-invariant witness: a four-sample
mono buffer with the cursor at the start. -/
def demoMono : StreamerState :=
  { inDataBytes := [1, 2, 3, 4], frameStartIndex := 0, channels := 1,
    rate := 192000, bitDepth := 16, audioQueue := [] }

/-- C1.  The claim says `apply_equalizer` accumulates all band
contributions by summation, so with two bands both contributions are
present in the output.  Evaluating the embedded code on the two-band
table over the frame `[1]` shows the loop overwrites: the result `[100]`
is exactly the second band's contribution, the first band's `[50]` is
lost, and the claim-side summing equalizer returns `[150]` instead. -/
theorem c1_overwrite_not_sum :
    apply_equalizer demoCtx { eqBands := [demoBand1, demoBand2], globalGain := 0 } 192000 [1]
        = .ok [100]
      ∧ apply_equalizer_summed demoCtx { eqBands := [demoBand1, demoBand2], globalGain := 0 } 192000 [1]
        = .ok [150]
      ∧ apply_equalizer demoCtx { eqBands := [demoBand1, demoBand2], globalGain := 0 } 192000 [1]
        ≠ apply_equalizer_summed demoCtx { eqBands := [demoBand1, demoBand2], globalGain := 0 } 192000 [1] := by
  refine ⟨?_, ?_, ?_⟩ <;>
    norm_num [apply_equalizer, apply_equalizer_summed, eqLoop, eqLoopSummed, bandContribution,
      lowEdge, highEdge, bandwidth, listAdd, demoCtx, demoDbLin, demoFilt, demoBand1, demoBand2]

/-- C2, counterexample.  With one valid band and a stored global gain of
20 dB (linear multiplier 10), the code returns the band contribution
`[50]` unscaled, while the claim's formula — global linear gain applied
to the summed band result — yields `[500]`: the code never applies the
global gain. -/
theorem c2_counterexample_global_gain_not_applied :
    apply_equalizer demoCtx { eqBands := [demoBand1], globalGain := 20 } 192000 [1]
        = .ok [50]
      ∧ apply_equalizer_claimed demoCtx { eqBands := [demoBand1], globalGain := 20 } 192000 [1]
        = .ok [500]
      ∧ apply_equalizer demoCtx { eqBands := [demoBand1], globalGain := 20 } 192000 [1]
        ≠ apply_equalizer_claimed demoCtx { eqBands := [demoBand1], globalGain := 20 } 192000 [1] := by
  refine ⟨?_, ?_, ?_⟩ <;>
    norm_num [apply_equalizer, apply_equalizer_claimed, apply_equalizer_summed, eqLoop,
      eqLoopSummed, bandContribution, lowEdge, highEdge, bandwidth, listAdd, Except.map,
      demoCtx, demoDbLin, demoFilt, demoBand1]

/-- C2, amended.  `apply_equalizer` never reads the stored global gain:
its output is identical for every value of `global_gain_db`, i.e. it
behaves as if the final multiplier were always 1.0. -/
theorem c2_global_gain_ignored (ctx : ScipyModel) (bands : List EqBand) (g g' sr : ℚ)
    (data : List ℚ) :
    apply_equalizer ctx { eqBands := bands, globalGain := g } sr data
      = apply_equalizer ctx { eqBands := bands, globalGain := g' } sr data := rfl

/-- C3, counterexample.  On the frame `[80]` the equalized result is
`[40000]`, outside the 16-bit signed range; the code's cast
`astype(np.int16)` wraps it to `-25536`, whereas the claim demands the
clamp bound `32767`. -/
theorem c3_counterexample_cast_wraps :
    apply_equalizer demoCtx { eqBands := [demoBand3], globalGain := 0 } 192000 [80]
        = .ok [40000]
      ∧ castFrame [40000] = [-25536]
      ∧ clampInt16 40000 = 32767
      ∧ astypeInt16 40000 ≠ clampInt16 40000 := by
  refine ⟨?_, ?_, ?_, ?_⟩ <;>
    norm_num [apply_equalizer, eqLoop, bandContribution, lowEdge, highEdge, bandwidth,
      castFrame, astypeInt16, wrap16, ratTrunc, clampInt16, demoCtx, demoDbLin, demoFilt,
      demoBand3]

/-- C3, amended.  The cast back to `int16` is a C-style conversion, not
a clamp: on every sample whose truncation already lies inside
`[-32768, 32767]` it returns that truncation exactly, and on samples
outside the range it wraps modulo 2 ^ 16 (the counterexample maps 40000
to -25536) instead of saturating at the bound. -/
theorem c3_cast_exact_in_range (x : ℚ) (h1 : -32768 ≤ ratTrunc x) (h2 : ratTrunc x ≤ 32767) :
    astypeInt16 x = ratTrunc x := by
  unfold astypeInt16 wrap16
  omega

/-- Witness for `c3_cast_exact_in_range` at the in-range sample 3. -/
theorem c3_cast_exact_in_range_witness :
    -32768 ≤ ratTrunc 3 ∧ ratTrunc 3 ≤ 32767 ∧ astypeInt16 3 = ratTrunc 3 := by
  have h1 : -32768 ≤ ratTrunc 3 := by norm_num [ratTrunc]
  have h2 : ratTrunc 3 ≤ 32767 := by norm_num [ratTrunc]
  exact ⟨h1, h2, c3_cast_exact_in_range 3 h1 h2⟩

/-- With a positive sample rate, the conjunction of the function's own
check of sound_processing.py:72 and `signal.butter`'s strict
critical-frequency validation is equivalent to strict edge validity. -/
theorem scipy_checks_iff (sr : ℚ) (b : EqBand) (hsr : 0 < sr) :
    ((0 ≤ lowEdge b / (sr / 2) ∧ lowEdge b / (sr / 2) < highEdge b / (sr / 2)
        ∧ highEdge b / (sr / 2) ≤ 1)
      ∧ (0 < lowEdge b / (sr / 2) ∧ lowEdge b / (sr / 2) < 1
        ∧ 0 < highEdge b / (sr / 2) ∧ highEdge b / (sr / 2) < 1))
      ↔ bandEdgesStrict sr b := by
  have hny : (0 : ℚ) < sr / 2 := by positivity
  have e1 : (0 ≤ lowEdge b / (sr / 2)) ↔ 0 ≤ lowEdge b := by rw [le_div_iff₀ hny, zero_mul]
  have e2 : (lowEdge b / (sr / 2) < highEdge b / (sr / 2)) ↔ lowEdge b < highEdge b :=
    div_lt_div_iff_of_pos_right hny
  have e3 : (highEdge b / (sr / 2) ≤ 1) ↔ highEdge b ≤ sr / 2 := div_le_one hny
  have e4 : (0 < lowEdge b / (sr / 2)) ↔ 0 < lowEdge b := by rw [lt_div_iff₀ hny, zero_mul]
  have e5 : (lowEdge b / (sr / 2) < 1) ↔ lowEdge b < sr / 2 := div_lt_one hny
  have e6 : (0 < highEdge b / (sr / 2)) ↔ 0 < highEdge b := by rw [lt_div_iff₀ hny, zero_mul]
  have e7 : (highEdge b / (sr / 2) < 1) ↔ highEdge b < sr / 2 := div_lt_one hny
  rw [e1, e2, e3, e4, e5, e6, e7]
  unfold bandEdgesStrict
  constructor
  · rintro ⟨⟨_, h2, _⟩, h4, _, _, h7⟩
    exact ⟨h4, h2, h7⟩
  · rintro ⟨h1, h2, h3⟩
    exact ⟨⟨le_of_lt h1, h2, le_of_lt h3⟩, h1, lt_trans h2 h3, lt_trans h1 h2, h3⟩

/-- On a strictly valid band with a long enough frame, the refined loop
iteration returns the scaled filtered contribution. -/
theorem bandContributionScipy_of_strict (ctx : ScipyModel) (sr : ℚ) (data : List ℚ)
    (b : EqBand) (hsr : 0 < sr) (hqb : 0 < b.q) (h : bandEdgesStrict sr b)
    (hlen : filtfiltPadlen < data.length) :
    bandContributionScipy ctx sr data b
      = .ok ((ctx.filt (lowEdge b) (highEdge b) sr data).map (fun x => x * ctx.dbLin b.gain)) := by
  have hny : sr / 2 ≠ 0 := by positivity
  have hc := (scipy_checks_iff sr b hsr).mpr h
  simp only [bandContributionScipy, if_neg (ne_of_gt hqb), if_neg hny]
  rw [if_pos hc.1, if_pos hc.2, if_pos hlen]

/-- On a band that is not strictly valid, the refined loop iteration
never succeeds: either the function's own check or `signal.butter`
raises. -/
theorem bandContributionScipy_not_ok (ctx : ScipyModel) (sr : ℚ) (data : List ℚ)
    (b : EqBand) (hsr : 0 < sr) (hqb : 0 < b.q) (h : ¬ bandEdgesStrict sr b) :
    ∀ c, bandContributionScipy ctx sr data b ≠ .ok c := by
  have hny : sr / 2 ≠ 0 := by positivity
  intro c
  simp only [bandContributionScipy, if_neg (ne_of_gt hqb), if_neg hny]
  by_cases h1 : (0 ≤ lowEdge b / (sr / 2) ∧ lowEdge b / (sr / 2) < highEdge b / (sr / 2)
      ∧ highEdge b / (sr / 2) ≤ 1)
  · rw [if_pos h1]
    by_cases h2 : (0 < lowEdge b / (sr / 2) ∧ lowEdge b / (sr / 2) < 1
        ∧ 0 < highEdge b / (sr / 2) ∧ highEdge b / (sr / 2) < 1)
    · exact absurd ((scipy_checks_iff sr b hsr).mp ⟨h1, h2⟩) h
    · rw [if_neg h2]
      exact fun hc => Except.noConfusion hc
  · rw [if_neg h1]
    exact fun hc => Except.noConfusion hc

/-- The refined band loop succeeds exactly when every band in the list
is strictly valid, given a frame longer than filtfilt's padding
length. -/
theorem eqLoopScipy_ok_iff (ctx : ScipyModel) (sr : ℚ) (data : List ℚ) (hsr : 0 < sr)
    (hlen : filtfiltPadlen < data.length) :
    ∀ (bands : List EqBand) (acc : List ℚ), (∀ b ∈ bands, 0 < b.q) →
      ((∃ out, eqLoopScipy ctx sr data bands acc = .ok out)
        ↔ ∀ b ∈ bands, bandEdgesStrict sr b) := by
  intro bands
  induction bands with
  | nil => intro acc _; simp [eqLoopScipy]
  | cons b rest ih =>
    intro acc hq
    have hqb : 0 < b.q := hq b (List.mem_cons_self b rest)
    have hrest : ∀ x ∈ rest, 0 < x.q := fun x hx => hq x (List.mem_cons_of_mem b hx)
    by_cases hb : bandEdgesStrict sr b
    · rw [eqLoopScipy, bandContributionScipy_of_strict ctx sr data b hsr hqb hb hlen]
      simp only [List.forall_mem_cons, hb, true_and]
      exact ih _ hrest
    · have hnotok := bandContributionScipy_not_ok ctx sr data b hsr hqb hb
      rw [eqLoopScipy]
      rcases hcase : bandContributionScipy ctx sr data b with e | contrib
      · simp [List.forall_mem_cons, hb]
      · exact absurd hcase (hnotok contrib)

/-- C6, amended.  For a positive sample rate, positive Q factors and a
frame longer than filtfilt's padding length, `apply_equalizer` fails —
with a `ValueError` (no `FilterDesignError` class exists anywhere in
the repository, and neither error message reports the band id) —
exactly when some band violates `0 < low_edge < high_edge < nyquist`:
the function's own non-strict check and `signal.butter`'s strict
critical-frequency validation jointly enforce exactly the strict
condition, and no invalid band is silently skipped.  On shorter frames
`filtfilt` raises `ValueError` even when every band is valid (the
counterexample). -/
theorem c6_scipy_error_iff_invalid_edges (ctx : ScipyModel) (bands : List EqBand) (g sr : ℚ)
    (data : List ℚ) (hsr : 0 < sr) (hq : ∀ b ∈ bands, 0 < b.q)
    (hlen : filtfiltPadlen < data.length) :
    (∃ out, apply_equalizer_scipy ctx { eqBands := bands, globalGain := g } sr data = .ok out)
      ↔ ∀ b ∈ bands, bandEdgesStrict sr b := by
  cases bands with
  | nil => simp [apply_equalizer_scipy]
  | cons b rest =>
    unfold apply_equalizer_scipy
    rw [if_neg (by simp)]
    exact eqLoopScipy_ok_iff ctx sr data hsr hlen (b :: rest) _ hq

/-- Witness for `c6_scipy_error_iff_invalid_edges` on the valid
one-band table over a 28-sample frame. -/
theorem c6_scipy_error_iff_invalid_edges_witness :
    0 < (192000 : ℚ) ∧ (∀ b ∈ [demoBand1], 0 < b.q)
      ∧ filtfiltPadlen < (List.replicate 28 (1 : ℚ)).length
      ∧ ((∃ out, apply_equalizer_scipy demoCtx { eqBands := [demoBand1], globalGain := 0 }
              192000 (List.replicate 28 (1 : ℚ)) = .ok out)
          ↔ ∀ b ∈ [demoBand1], bandEdgesStrict 192000 b) := by
  have h1 : 0 < (192000 : ℚ) := by decide
  have h2 : ∀ b ∈ [demoBand1], 0 < b.q := by decide
  have h3 : filtfiltPadlen < (List.replicate 28 (1 : ℚ)).length := by decide
  exact ⟨h1, h2, h3, c6_scipy_error_iff_invalid_edges demoCtx [demoBand1] 0 192000
    (List.replicate 28 (1 : ℚ)) h1 h2 h3⟩

/-- C6, counterexample.  A strictly valid band processed over a
one-sample frame: the claim says no error is raised when every band
satisfies `0 < low_edge < high_edge < nyquist`, but `filtfilt` raises
`ValueError` because the frame is not longer than its padding length,
so the program errors on a fully valid band table. -/
theorem c6_counterexample_valid_band_short_frame_errors :
    bandEdgesStrict 192000 demoBand1
      ∧ apply_equalizer_scipy demoCtx { eqBands := [demoBand1], globalGain := 0 } 192000 [1]
          = .error .valueError := by
  refine ⟨?_, ?_⟩ <;>
    norm_num [bandEdgesStrict, apply_equalizer_scipy, eqLoopScipy, bandContributionScipy,
      filtfiltPadlen, lowEdge, highEdge, bandwidth, demoCtx, demoDbLin, demoFilt, demoBand1]

/-- C4.  Evaluating the embedded callback at a concrete state: the call
`sound_processing.apply_equalizer(frame_np, self.rate, self.bit_depth)`
passes three positional arguments to a two-parameter function, so the
invocation raises `TypeError`; the callback has no handler and the
exception propagates across the backend boundary instead of being
converted to a stop/complete signal. -/
theorem c4_callback_raises_type_error :
    (callback demoS0 1).1 = .error .typeError := rfl

/-- C5, counterexample.  At a state whose cursor has reached the buffer
end, the callback does not return the complete flag (nor any flag): it
raises `TypeError`, so the claim that end-of-stream is signalled with a
"complete" return is false. -/
theorem c5_counterexample_no_complete_flag :
    demoSEnd.inDataBytes.length ≤ demoSEnd.frameStartIndex
      ∧ (callback demoSEnd 1).1 = .error .typeError := by
  refine ⟨by decide, rfl⟩

/-- C5, amended.  The callback never signals completion: every
invocation, at every state and frame count, raises `TypeError` from the
equalizer call before reaching the return statement (whose flag, for
what it is worth, is the unconditional `paContinue` of
audio_stream.py:144). -/
theorem c5_callback_always_raises (s : StreamerState) (frameCount : Nat) :
    (callback s frameCount).1 = .error .typeError := rfl

/-- The clamped end index equals the minimum of the requested end and
the buffer length. -/
theorem callbackEnd_eq_min (s : StreamerState) (frameCount : Nat) :
    callbackEnd s frameCount
      = min (s.frameStartIndex + frameCount * s.channels) s.inDataBytes.length := by
  simp only [callbackEnd]
  split <;> omega

/-- One callback invocation only moves the cursor: the new state is the
old one with `frame_start_index` set to the clamped end index. -/
theorem callback_state_eq (s : StreamerState) (frameCount : Nat) :
    (callback s frameCount).2 = { s with frameStartIndex := callbackEnd s frameCount } := rfl

/-- The extracted slice consists exactly of the buffer elements with
indices in `[cursor, end)`. -/
theorem callbackSlice_eq (s : StreamerState) (frameCount : Nat) :
    callbackSlice s frameCount
      = (s.inDataBytes.take (callbackEnd s frameCount)).drop s.frameStartIndex := by
  unfold callbackSlice
  rw [List.drop_take]

/-- Across any sequence of callback invocations the buffer is unchanged
and the cursor is monotone and bounded by the buffer length. -/
theorem runCallbacks_cursor (fcs : List Nat) :
    ∀ s : StreamerState, s.frameStartIndex ≤ s.inDataBytes.length →
      (runCallbacks s fcs).inDataBytes = s.inDataBytes
        ∧ s.frameStartIndex ≤ (runCallbacks s fcs).frameStartIndex
        ∧ (runCallbacks s fcs).frameStartIndex ≤ s.inDataBytes.length := by
  induction fcs with
  | nil => intro s h; exact ⟨rfl, le_refl _, h⟩
  | cons fc rest ih =>
    intro s h
    have hbuf : (callback s fc).2.inDataBytes = s.inDataBytes := rfl
    have hcur : (callback s fc).2.frameStartIndex = callbackEnd s fc := rfl
    have h1 : s.frameStartIndex ≤ callbackEnd s fc := by
      rw [callbackEnd_eq_min]; omega
    have h2 : callbackEnd s fc ≤ s.inDataBytes.length := by
      rw [callbackEnd_eq_min]; omega
    have hrec := ih (callback s fc).2 (by rw [hcur, hbuf]; exact h2)
    rw [runCallbacks]
    refine ⟨by rw [hrec.1, hbuf], ?_, ?_⟩
    · exact le_trans (by rw [hcur]; exact h1) hrec.2.1
    · exact le_trans hrec.2.2 (by rw [hbuf])

/-- C7.  The playback cursor obeys the claimed discipline: after one
invocation the cursor equals `min(cursor + frame_count * channels,
buffer_length)`; the cursor never decreases and never exceeds the buffer
length (also across any sequence of invocations); and the extracted
slice is exactly the buffer segment `[cursor, min(cursor + frame_count *
channels, buffer_length))`. -/
theorem c7_cursor_invariant (s : StreamerState) (fc : Nat) (fcs : List Nat)
    (h : s.frameStartIndex ≤ s.inDataBytes.length) :
    (callback s fc).2.frameStartIndex
        = min (s.frameStartIndex + fc * s.channels) s.inDataBytes.length
      ∧ s.frameStartIndex ≤ (callback s fc).2.frameStartIndex
      ∧ (callback s fc).2.frameStartIndex ≤ s.inDataBytes.length
      ∧ callbackSlice s fc
          = (s.inDataBytes.take
              (min (s.frameStartIndex + fc * s.channels) s.inDataBytes.length)).drop
              s.frameStartIndex
      ∧ s.frameStartIndex ≤ (runCallbacks s fcs).frameStartIndex
      ∧ (runCallbacks s fcs).frameStartIndex ≤ s.inDataBytes.length := by
  have hmin := callbackEnd_eq_min s fc
  have hcur : (callback s fc).2.frameStartIndex = callbackEnd s fc := rfl
  have hrun := runCallbacks_cursor fcs s h
  refine ⟨by rw [hcur, hmin], ?_, ?_, ?_, hrun.2.1, hrun.2.2⟩
  · rw [hcur, hmin]; omega
  · rw [hcur, hmin]; omega
  · rw [callbackSlice_eq, hmin]

/-- Witness for `c7_cursor_invariant` on a four-sample mono buffer and
frame count 3: the first slice is `[0, 3)` and two further invocations
stop the cursor at the buffer length 4. -/
theorem c7_cursor_invariant_witness :
    demoMono.frameStartIndex ≤ demoMono.inDataBytes.length
      ∧ ((callback demoMono 3).2.frameStartIndex
            = min (demoMono.frameStartIndex + 3 * demoMono.channels) demoMono.inDataBytes.length
        ∧ demoMono.frameStartIndex ≤ (callback demoMono 3).2.frameStartIndex
        ∧ (callback demoMono 3).2.frameStartIndex ≤ demoMono.inDataBytes.length
        ∧ callbackSlice demoMono 3
            = (demoMono.inDataBytes.take
                (min (demoMono.frameStartIndex + 3 * demoMono.channels)
                  demoMono.inDataBytes.length)).drop demoMono.frameStartIndex
        ∧ demoMono.frameStartIndex ≤ (runCallbacks demoMono [3, 3]).frameStartIndex
        ∧ (runCallbacks demoMono [3, 3]).frameStartIndex ≤ demoMono.inDataBytes.length) :=
  ⟨by decide, c7_cursor_invariant demoMono 3 [3, 3] (by decide)⟩

/-- C8, counterexample.  On the normal exit of the polling loop (stream
no longer active) `streaming()` performs no teardown at all — in
particular the backend device handle is not released — although
`stop_stream()` would have released it. -/
theorem c8_counterexample_normal_exit_no_teardown :
    BackendAction.terminateAudio ∉ streamingExitTrace true true LoopExit.normal
      ∧ BackendAction.terminateAudio ∈ stopStreamTrace true true := by
  refine ⟨by decide, by decide⟩

/-- C8, amended.  `streaming()` invokes `stop_stream()` only on the
`KeyboardInterrupt` exit path: the backend device handle is released
exactly when the loop exits by interrupt (and the PyAudio instance
exists); the normal end of playback and the unexpected-exception path
perform no teardown. -/
theorem c8_teardown_only_on_interrupt (hasStream hasAudio : Bool) (e : LoopExit) :
    BackendAction.terminateAudio ∈ streamingExitTrace hasStream hasAudio e
      ↔ e = LoopExit.keyboardInterrupt ∧ hasAudio = true := by
  cases e <;> cases hasAudio <;> cases hasStream <;> decide

/-- C9.  Evaluating the `bit_depth` setter at the enumerated value 24:
because `(16 or 24)` evaluates to 16, the guard `value != (16 or 24)`
rejects 24 and raises `ValueError`, contradicting the claim (and the
code's own error message) that both 16 and 24 are accepted; 16 is the
only value that passes. -/
theorem c9_bit_depth_24_rejected :
    bitDepthSetter { bitDepth := 24 } 24 = .error .valueError
      ∧ bitDepthSetter { bitDepth := 24 } 16 = .ok { bitDepth := 16 } := by
  refine ⟨by decide, by decide⟩

/-- C10.  Assigning to `full_path_name` never terminates: the setter
acquires the object's non-reentrant lock and its body re-invokes the
same setter, which blocks forever on the already-held lock — for every
recursion-depth bound and every initial lock state the execution fails
to return. -/
theorem c10_full_path_name_setter_deadlocks (fuel : Nat) (lockHeld : Bool) :
    fullPathNameSetter fuel lockHeld = none := by
  cases fuel with
  | zero => cases lockHeld <;> rfl
  | succ n =>
    cases lockHeld with
    | true => rfl
    | false => show fullPathNameSetter n true = none; cases n <;> rfl

end StereoMic
